import Mathlib

/-!
Shallow embedding of the Wayfound JavaScript SDK client classes (`Recording` from
recording.js and `Session` from session.js) and proofs about their session/recording
lifecycle protocol.

Each SDK method is embedded as a pure Lean function from the object's state, the
method's arguments and a transport (the axios boundary) to a result record carrying
the updated object state, the list of HTTP requests issued during the call, and the
method's outcome (returned value or thrown error).  JavaScript nullable string
values are modelled three-valued (`null` / `undefined` / string) so that the
source's strict `=== null` checks and its truthiness checks are both represented
exactly.
-/

namespace Wayfound

/-- JSON values, as built by the SDK for request payloads and as carried by
responses. -/
inductive Json where
  | null : Json
  | bool : Bool → Json
  | str : String → Json
  | arr : List Json → Json
  | obj : List (String × Json) → Json

/-- The JavaScript values a nullable-string field of an SDK object ranges over:
`null`, `undefined`, or a string. -/
inductive JStr where
  | null : JStr
  | undefined : JStr
  | str : String → JStr
deriving DecidableEq, Repr

/-- JavaScript truthiness of such a value: `null`, `undefined` and `""` are falsy,
every other string is truthy. -/
def JStr.truthy : JStr → Bool
  | .str s => s != ""
  | _ => false

/-- Strict equality with `null` (the `=== null` / `!== null` checks of session.js). -/
def JStr.isNull : JStr → Bool
  | .null => true
  | _ => false

/-- Template-literal stringification of such a value. -/
def JStr.interp : JStr → String
  | .null => "null"
  | .undefined => "undefined"
  | .str s => s

/-- JSON serialization of such a value when used as an object field.  Every use in
the SDK sits under a truthiness guard, so the value serialized is always a
non-empty string. -/
def JStr.toJson : JStr → Json
  | .str s => Json.str s
  | _ => Json.null

/-- Template-literal stringification of a boolean (the `published` query flag). -/
def boolStr : Bool → String
  | true => "true"
  | false => "false"

/-- A thrown JavaScript error: its constructor name and its `message` property.
Template stringification gives `name ++ ": " ++ message`. -/
structure JsError where
  name : String
  message : String
deriving DecidableEq, Repr

/-- Template-literal stringification of an error value. -/
def JsError.interp (e : JsError) : String := e.name ++ ": " ++ e.message

/-- Construction `new Error(msg)`. -/
def jsError (msg : String) : JsError := { name := "Error", message := msg }

/-- HTTP methods used by the SDK. -/
inductive Method where
  | post : Method
  | put : Method
deriving DecidableEq, Repr

/-- An outgoing HTTP request as assembled by an SDK method. -/
structure Request where
  method : Method
  url : String
  body : Json
  headers : List (String × String)

/-- An axios response: its `status` and its parsed `data`. -/
structure Response where
  status : Nat
  data : Json

/-- The axios boundary: a transport maps a request either to a resolved response or
to a rejected promise carrying an error. -/
def Transport : Type := Request → Except JsError Response

/-- The observable result of one SDK method call: the object's state afterwards,
the requests issued during the call, and the returned value or thrown error. -/
structure MethodResult (σ : Type) (α : Type) where
  state : σ
  requests : List Request
  outcome : Except JsError α

/-- Property lookup on a JSON object's field list. -/
def lookupField : List (String × Json) → String → Option Json
  | [], _ => none
  | (k, v) :: rest, key => if k == key then some v else lookupField rest key

/-- Property access `obj.key` for string-valued-or-absent fields.  The service
contract returns `id` as a string; an absent property reads as `undefined`. -/
def Json.getStrField (j : Json) (key : String) : JStr :=
  match j with
  | .obj fields =>
      match lookupField fields key with
      | some (.str s) => .str s
      | some .null => .null
      | _ => .undefined
  | _ => .undefined

/-- Whether a JSON object carries a field named `key`. -/
def Json.hasKey (j : Json) (key : String) : Bool :=
  match j with
  | .obj fields => (lookupField fields key).isSome
  | _ => false

/-! Module-scope constants of recording.js. -/

def WAYFOUND_HOST : String := "https://app.wayfound.ai"

def WAYFOUND_RECORDING_ACTIVE_URL : String := WAYFOUND_HOST ++ "/api/v1/recordings/active"

def WAYFOUND_RECORDING_COMPLETED_URL : String := WAYFOUND_HOST ++ "/api/v1/recordings/completed"

def SDK_LANGUAGE : String := "JavaScript"

/-- Identifier resolution in the module scope of recording.js: the module's
top-level `const` bindings.  The identifier `WAYFOUND_RECORDINGS_URL`, read by
`newRecording`, is not among them, so resolving it yields `none` (a
`ReferenceError` at evaluation time). -/
def recordingModuleScope : String → Option String
  | "WAYFOUND_HOST" => some WAYFOUND_HOST
  | "WAYFOUND_RECORDING_ACTIVE_URL" => some WAYFOUND_RECORDING_ACTIVE_URL
  | "WAYFOUND_RECORDING_COMPLETED_URL" => some WAYFOUND_RECORDING_COMPLETED_URL
  | "SDK_LANGUAGE" => some SDK_LANGUAGE
  | _ => none

/-- A recording-protocol chat message: `{role, content}`. -/
structure Message where
  role : String
  content : String
deriving DecidableEq, Repr

/-- JSON serialization of a `messages` array element.  The element is an arbitrary
JavaScript value: `none` models `undefined` (which the Langchain adapter's map
callback can produce, and which serializes as `null` inside an array). -/
def msgToJson : Option Message → Json
  | some m => Json.obj [("role", Json.str m.role), ("content", Json.str m.content)]
  | none => Json.null

/-- The fields of a `Recording` instance. -/
structure RecordingState where
  wayfoundApiKey : String
  agentId : String
  published : Bool
  recordingId : JStr
  headers : List (String × String)
deriving DecidableEq, Repr

/-- Constructor `new Recording({...})`.  `version` is the SDK version imported from
package.json.  The constructor accepts an `initialMessages` argument but never
stores it, so it is omitted here. -/
def Recording.init (wayfoundApiKey : String) (agentId : String) (recordingId : JStr)
    (published : Bool) (version : String) : RecordingState :=
  { wayfoundApiKey := wayfoundApiKey
    agentId := agentId
    published := published
    recordingId := recordingId
    headers := [("Content-Type", "application/json"),
                ("Authorization", "Bearer " ++ wayfoundApiKey),
                ("X-SDK-Language", SDK_LANGUAGE),
                ("X-SDK-Version", version)] }

/-- The create request `newRecording` would issue from base URL `base`. -/
def Recording.createRequest (base : String) (st : RecordingState)
    (initialMessages : List (Option Message)) : Request :=
  { method := .post
    url := base ++ "?published=" ++ boolStr st.published
    body := Json.obj [("agentId", Json.str st.agentId),
                      ("messages", Json.arr (initialMessages.map msgToJson))]
    headers := st.headers }

/-- Method `Recording.newRecording`.  Its first line reads the identifier
`WAYFOUND_RECORDINGS_URL` from the module scope, outside the `try` block; the
module defines no such binding, so evaluation throws a `ReferenceError` before any
request is issued.  The `some` branch embeds the remainder of the method as
written, for the case that a binding were in scope. -/
def Recording.newRecording (t : Transport) (st : RecordingState)
    (initialMessages : List (Option Message)) : MethodResult RecordingState JStr :=
  match recordingModuleScope "WAYFOUND_RECORDINGS_URL" with
  | none =>
      { state := st, requests := [],
        outcome := .error { name := "ReferenceError",
                            message := "WAYFOUND_RECORDINGS_URL is not defined" } }
  | some base =>
      let req := Recording.createRequest base st initialMessages
      match t req with
      | .ok resp =>
          let newId := resp.data.getStrField "id"
          { state := { st with recordingId := newId },
            requests := [req], outcome := .ok newId }
      | .error e =>
          { state := st, requests := [req],
            outcome := .error (jsError ("Error creating new recording: " ++ e.interp)) }

/-- The update request `recordMessages` issues when an identity is present. -/
def Recording.updateRequest (st : RecordingState) (messages : List (Option Message)) :
    Request :=
  { method := .put
    url := WAYFOUND_RECORDING_ACTIVE_URL ++ "?published=" ++ boolStr st.published
    body := Json.obj [("recordingId", st.recordingId.toJson),
                      ("messages", Json.arr (messages.map msgToJson))]
    headers := st.headers }

/-- Method `Recording.recordMessages`: create when `this.recordingId` is falsy,
update otherwise. -/
def Recording.recordMessages (t : Transport) (st : RecordingState)
    (messages : List (Option Message)) : MethodResult RecordingState Unit :=
  if !st.recordingId.truthy then
    let r := Recording.newRecording t st messages
    match r.outcome with
    | .ok newId =>
        { state := { r.state with recordingId := newId },
          requests := r.requests, outcome := .ok () }
    | .error e =>
        { state := r.state, requests := r.requests,
          outcome := .error (jsError ("Error creating new recording: " ++ e.interp)) }
  else
    let req := Recording.updateRequest st messages
    match t req with
    | .ok _ => { state := st, requests := [req], outcome := .ok () }
    | .error e =>
        { state := st, requests := [req],
          outcome := .error (jsError ("Error updating recording request: " ++ e.message)) }

/-- The completion request issued by `completedRecording` after defaulting the two
timestamps. -/
def Recording.completedRequest (st : RecordingState) (messages : List (Option Message))
    (firstAt : JStr) (lastAt : JStr) (visitorId : JStr) : Request :=
  { method := .post
    url := WAYFOUND_RECORDING_COMPLETED_URL ++ "?published=" ++ boolStr st.published
    body := Json.obj ([("agentId", Json.str st.agentId),
                       ("messages", Json.arr (messages.map msgToJson)),
                       ("firstMessageAt", firstAt.toJson),
                       ("lastMessageAt", lastAt.toJson)]
                      ++ (if visitorId.truthy then [("visitorId", visitorId.toJson)] else []))
    headers := st.headers }

/-- Method `Recording.completedRecording`.  `nowFirst` and `nowLast` are the two
`new Date().toISOString()` readings taken when the corresponding timestamp
argument is falsy.  The non-200 branch throws inside the `try`, so its message is
wrapped a second time by the method's own `catch`. -/
def Recording.completedRecording (t : Transport) (st : RecordingState)
    (messages : List (Option Message)) (firstMessageAt : JStr) (lastMessageAt : JStr)
    (visitorId : JStr) (nowFirst : String) (nowLast : String) :
    MethodResult RecordingState Unit :=
  let firstAt := if firstMessageAt.truthy then firstMessageAt else .str nowFirst
  let lastAt := if lastMessageAt.truthy then lastMessageAt else .str nowLast
  let req := Recording.completedRequest st messages firstAt lastAt visitorId
  match t req with
  | .ok resp =>
      if resp.status == 200 then
        { state := { st with recordingId := .null }, requests := [req], outcome := .ok () }
      else
        { state := st, requests := [req],
          outcome := .error (jsError ("Error completing recording request: "
            ++ "Error completing recording request: " ++ toString resp.status)) }
  | .error e =>
      { state := st, requests := [req],
        outcome := .error (jsError ("Error completing recording request: " ++ e.message)) }

/-- A message of a Langchain memory: `{type, content}` with type 'ai' or 'human'. -/
structure LangchainMessage where
  type : String
  content : String
deriving DecidableEq, Repr

/-- The `chat_memory` component of a Langchain memory object. -/
structure ChatMemory where
  messages : List LangchainMessage
deriving DecidableEq, Repr

/-- A Langchain memory object as consumed by the adapter. -/
structure LangchainMemory where
  chat_memory : ChatMemory
deriving DecidableEq, Repr

/-- The arrow-function callback of `recordMessagesFromLangchainMemory`: maps 'ai'
to an assistant message and 'human' to a user message; any other type falls off
the end of the conditional and yields `undefined` (`none`). -/
def formatLangchainMessage (m : LangchainMessage) : Option Message :=
  if m.type == "ai" then some { role := "assistant", content := m.content }
  else if m.type == "human" then some { role := "user", content := m.content }
  else none

/-- Method `Recording.recordMessagesFromLangchainMemory`: formats the memory's
message list and delegates to `recordMessages`. -/
def Recording.recordMessagesFromLangchainMemory (t : Transport) (st : RecordingState)
    (memory : LangchainMemory) : MethodResult RecordingState Unit :=
  Recording.recordMessages t st (memory.chat_memory.messages.map formatLangchainMessage)

/-! Module-scope constants and the `Session` class of session.js. -/

def WAYFOUND_CREATE_SESSION_URL : String := WAYFOUND_HOST ++ "/api/v2/sessions"

def WAYFOUND_APPEND_TO_SESSION_URL : String := WAYFOUND_HOST ++ "/api/v2/sessions"

/-- The fields of a `Session` instance. -/
structure SessionState where
  wayfoundApiKey : String
  agentId : String
  applicationId : JStr
  visitorId : JStr
  visitorDisplayName : JStr
  accountId : JStr
  accountDisplayName : JStr
  sessionId : JStr
  headers : List (String × String)
deriving DecidableEq, Repr

/-- Constructor `new Session({...})` (SDK version 2.3.0). -/
def Session.init (wayfoundApiKey : String) (agentId : String) (applicationId : JStr)
    (visitorId : JStr) (visitorDisplayName : JStr) (accountId : JStr)
    (accountDisplayName : JStr) (sessionId : JStr) : SessionState :=
  { wayfoundApiKey := wayfoundApiKey
    agentId := agentId
    applicationId := applicationId
    visitorId := visitorId
    visitorDisplayName := visitorDisplayName
    accountId := accountId
    accountDisplayName := accountDisplayName
    sessionId := sessionId
    headers := [("Content-Type", "application/json"),
                ("Authorization", "Bearer " ++ wayfoundApiKey),
                ("X-SDK-Language", SDK_LANGUAGE),
                ("X-SDK-Version", "2.3.0")] }

/-- The optional context fields conditionally added to the creation payload, in
source order; each is added exactly when its value is truthy. -/
def Session.optionalFields (st : SessionState) : List (String × Json) :=
  (if st.visitorId.truthy then [("visitorId", st.visitorId.toJson)] else [])
  ++ (if st.visitorDisplayName.truthy then
        [("visitorDisplayName", st.visitorDisplayName.toJson)] else [])
  ++ (if st.accountId.truthy then [("accountId", st.accountId.toJson)] else [])
  ++ (if st.accountDisplayName.truthy then
        [("accountDisplayName", st.accountDisplayName.toJson)] else [])
  ++ (if st.applicationId.truthy then [("applicationId", st.applicationId.toJson)] else [])

/-- The creation request issued by `Session.create` once its guard has passed. -/
def Session.createRequest (st : SessionState) (messages : List Json) (async : Bool) :
    Request :=
  { method := .post
    url := WAYFOUND_CREATE_SESSION_URL
    body := Json.obj ([("agentId", Json.str st.agentId),
                       ("messages", Json.arr messages),
                       ("async", Json.bool async)] ++ Session.optionalFields st)
    headers := st.headers }

/-- Method `Session.create`: guarded by `this.sessionId !== null`; on a 200
response stores `response.data.id` as the session identity; a non-200 status
throws inside the `try`, so its message is wrapped a second time by the method's
own `catch`. -/
def Session.create (t : Transport) (st : SessionState) (messages : List Json)
    (async : Bool) : MethodResult SessionState Json :=
  if !st.sessionId.isNull then
    { state := st, requests := [],
      outcome := .error (jsError
        "Session already created. Use appendToSession to add more messages.") }
  else
    let req := Session.createRequest st messages async
    match t req with
    | .ok resp =>
        if resp.status != 200 then
          { state := st, requests := [req],
            outcome := .error (jsError ("Error creating session: "
              ++ "Error creating session: " ++ toString resp.status)) }
        else
          { state := { st with sessionId := resp.data.getStrField "id" },
            requests := [req], outcome := .ok resp.data }
    | .error e =>
        { state := st, requests := [req],
          outcome := .error (jsError ("Error creating session: " ++ e.message)) }

/-- Deprecated method `Session.completeSession`: emits a console warning and
delegates to `create` unchanged. -/
def Session.completeSession (t : Transport) (st : SessionState) (messages : List Json)
    (async : Bool) : MethodResult SessionState Json :=
  Session.create t st messages async

/-- The append request issued by `Session.appendToSession` once its guard has
passed, after the `messages === null` normalisation. -/
def Session.appendRequest (st : SessionState) (msgs : List Json) (async : Bool) :
    Request :=
  { method := .put
    url := WAYFOUND_APPEND_TO_SESSION_URL ++ "/" ++ st.sessionId.interp
    body := Json.obj [("messages", Json.arr msgs), ("async", Json.bool async)]
    headers := st.headers }

/-- Method `Session.appendToSession`: guarded by `this.sessionId === null`; a
caller-supplied `null` message list (`none`) is normalised to `[]`; targets the
URL built from the stored identity; a non-200 status throws inside the `try`, so
its message is wrapped a second time by the method's own `catch`. -/
def Session.appendToSession (t : Transport) (st : SessionState)
    (messages : Option (List Json)) (async : Bool) : MethodResult SessionState Json :=
  if st.sessionId.isNull then
    { state := st, requests := [],
      outcome := .error (jsError
        "No sessionId available. Complete a session first before appending.") }
  else
    let msgs := match messages with
      | none => []
      | some ms => ms
    let req := Session.appendRequest st msgs async
    match t req with
    | .ok resp =>
        if resp.status != 200 then
          { state := st, requests := [req],
            outcome := .error (jsError ("Error appending to session: "
              ++ "Error appending to session: " ++ toString resp.status)) }
        else
          { state := st, requests := [req], outcome := .ok resp.data }
    | .error e =>
        { state := st, requests := [req],
          outcome := .error (jsError ("Error appending to session: " ++ e.message)) }

/-- A transport whose every response has the given status and data. -/
def constTransport (status : Nat) (data : Json) : Transport :=
  fun _ => .ok { status := status, data := data }

/-- A transport that rejects every request at the network level. -/
def failTransport : Transport :=
  fun _ => .error { name := "AxiosError", message := "Network Error" }

/-- A session constructed with `visitorId` supplied as the empty string: a non-null
(but falsy) optional context value, with no identity yet. -/
def emptyVisitorSession : SessionState :=
  Session.init "k" "agent-1" JStr.null (JStr.str "") JStr.null JStr.null JStr.null
    JStr.null

/-- A Langchain memory holding one human and one ai message. -/
def sampleMemory : LangchainMemory :=
  { chat_memory := { messages := [{ type := "human", content := "Hello" },
                                  { type := "ai", content := "Hi there!" }] } }

/-- Helper: once the guard of `appendToSession` has passed, the method issues
exactly the append request, whatever the transport answers. -/
theorem appendToSession_requests (t : Transport) (st : SessionState)
    (messages : Option (List Json)) (async : Bool) (h : st.sessionId.isNull = false) :
    (Session.appendToSession t st messages async).requests
      = [Session.appendRequest st (messages.getD []) async] := by
  cases messages with
  | none =>
      cases ht : t (Session.appendRequest st [] async) with
      | ok resp =>
          by_cases hs : resp.status = 200 <;> simp [Session.appendToSession, h, ht, hs]
      | error e => simp [Session.appendToSession, h, ht]
  | some ms =>
      cases ht : t (Session.appendRequest st ms async) with
      | ok resp =>
          by_cases hs : resp.status = 200 <;> simp [Session.appendToSession, h, ht, hs]
      | error e => simp [Session.appendToSession, h, ht]

/-- C1 (code bug, evaluation at the failing input): the claim says a `Recording`
with null identity issues exactly one POST create request to
`/api/v1/recordings/active?published=...` and stores the returned id.  In the
code, `newRecording` reads the module identifier `WAYFOUND_RECORDINGS_URL`, which
recording.js never defines (its constant is named `WAYFOUND_RECORDING_ACTIVE_URL`),
so both `newRecording` and `recordMessages` on a null-identity object throw a
`ReferenceError` without issuing any request and without storing an id, even when
the transport would answer 200 with an id. -/
theorem c1_create_reference_error :
    recordingModuleScope "WAYFOUND_RECORDINGS_URL" = none
    ∧ Recording.newRecording (constTransport 200 (Json.obj [("id", Json.str "r1")]))
        (Recording.init "k" "agent-1" JStr.null true "1.0.0")
        [some { role := "user", content := "Hello" }]
      = { state := Recording.init "k" "agent-1" JStr.null true "1.0.0",
          requests := [],
          outcome := Except.error { name := "ReferenceError",
                                    message := "WAYFOUND_RECORDINGS_URL is not defined" } }
    ∧ Recording.recordMessages (constTransport 200 (Json.obj [("id", Json.str "r1")]))
        (Recording.init "k" "agent-1" JStr.null true "1.0.0")
        [some { role := "user", content := "Hello" }]
      = { state := Recording.init "k" "agent-1" JStr.null true "1.0.0",
          requests := [],
          outcome := Except.error (jsError
            "Error creating new recording: ReferenceError: WAYFOUND_RECORDINGS_URL is not defined") } :=
  ⟨rfl, rfl, rfl⟩

/-- C2 (confirmed): once `sessionId` is non-null, every `Session.create` call
throws the fixed precondition error synchronously: no request reaches the
transport and every field of the object is unchanged, whatever the transport and
payload. -/
theorem c2_create_twice_fails (t : Transport) (st : SessionState)
    (messages : List Json) (async : Bool) (h : st.sessionId ≠ JStr.null) :
    Session.create t st messages async
      = { state := st, requests := [],
          outcome := Except.error (jsError
            "Session already created. Use appendToSession to add more messages.") } := by
  have hnull : st.sessionId.isNull = false := by
    cases hs : st.sessionId with
    | null => exact absurd hs h
    | undefined => rfl
    | str s => rfl
  simp [Session.create, hnull]

/-- Witness for C2 at a session whose identity is already `"s-1"`. -/
theorem c2_create_twice_fails_witness :
    (Session.init "k" "agent-1" JStr.null JStr.null JStr.null JStr.null JStr.null
        (JStr.str "s-1")).sessionId ≠ JStr.null
    ∧ Session.create failTransport
        (Session.init "k" "agent-1" JStr.null JStr.null JStr.null JStr.null JStr.null
          (JStr.str "s-1")) [] true
      = { state := Session.init "k" "agent-1" JStr.null JStr.null JStr.null JStr.null
            JStr.null (JStr.str "s-1"),
          requests := [],
          outcome := Except.error (jsError
            "Session already created. Use appendToSession to add more messages.") } :=
  ⟨by decide, c2_create_twice_fails failTransport _ [] true (by decide)⟩

/-- C3 (confirmed): while `sessionId` is null, every `appendToSession` call throws
the fixed precondition error synchronously: no request reaches the transport and
the object is unchanged, whatever the messages and async arguments. -/
theorem c3_append_before_create_fails (t : Transport) (st : SessionState)
    (messages : Option (List Json)) (async : Bool) (h : st.sessionId = JStr.null) :
    Session.appendToSession t st messages async
      = { state := st, requests := [],
          outcome := Except.error (jsError
            "No sessionId available. Complete a session first before appending.") } := by
  simp [Session.appendToSession, h, JStr.isNull]

/-- Witness for C3 at a freshly constructed session. -/
theorem c3_append_before_create_fails_witness :
    (Session.init "k" "agent-1" JStr.null JStr.null JStr.null JStr.null JStr.null
        JStr.null).sessionId = JStr.null
    ∧ Session.appendToSession failTransport
        (Session.init "k" "agent-1" JStr.null JStr.null JStr.null JStr.null JStr.null
          JStr.null) (some []) false
      = { state := Session.init "k" "agent-1" JStr.null JStr.null JStr.null JStr.null
            JStr.null JStr.null,
          requests := [],
          outcome := Except.error (jsError
            "No sessionId available. Complete a session first before appending.") } :=
  ⟨rfl, c3_append_before_create_fails failTransport _ (some []) false rfl⟩

/-- C4 (confirmed): `completedRecording` issues exactly one POST completion
request; it resets `recordingId` to null exactly when the response status is 200;
on any other status, and on a transport failure, it throws an error and leaves the
whole object state unchanged, so the caller may retry. -/
theorem c4_completed_recording_status (t : Transport) (st : RecordingState)
    (messages : List (Option Message)) (firstMessageAt lastMessageAt visitorId : JStr)
    (nowFirst nowLast : String) (req : Request)
    (hreq : req = Recording.completedRequest st messages
      (if firstMessageAt.truthy then firstMessageAt else JStr.str nowFirst)
      (if lastMessageAt.truthy then lastMessageAt else JStr.str nowLast) visitorId) :
    (Recording.completedRecording t st messages firstMessageAt lastMessageAt visitorId
        nowFirst nowLast).requests = [req]
    ∧ req.method = Method.post
    ∧ (match t req with
       | Except.ok resp =>
           if resp.status = 200 then
             (Recording.completedRecording t st messages firstMessageAt lastMessageAt
                 visitorId nowFirst nowLast).state = { st with recordingId := JStr.null }
             ∧ (Recording.completedRecording t st messages firstMessageAt lastMessageAt
                 visitorId nowFirst nowLast).outcome = Except.ok ()
           else
             (Recording.completedRecording t st messages firstMessageAt lastMessageAt
                 visitorId nowFirst nowLast).state = st
             ∧ (Recording.completedRecording t st messages firstMessageAt lastMessageAt
                 visitorId nowFirst nowLast).outcome
               = Except.error (jsError ("Error completing recording request: "
                   ++ "Error completing recording request: " ++ toString resp.status))
       | Except.error e =>
           (Recording.completedRecording t st messages firstMessageAt lastMessageAt
               visitorId nowFirst nowLast).state = st
           ∧ (Recording.completedRecording t st messages firstMessageAt lastMessageAt
               visitorId nowFirst nowLast).outcome
             = Except.error (jsError
                 ("Error completing recording request: " ++ e.message))) := by
  subst hreq
  constructor
  · cases ht : t (Recording.completedRequest st messages
        (if firstMessageAt.truthy then firstMessageAt else JStr.str nowFirst)
        (if lastMessageAt.truthy then lastMessageAt else JStr.str nowLast) visitorId) with
    | ok resp =>
        by_cases hs : resp.status = 200 <;> simp [Recording.completedRecording, ht, hs]
    | error e => simp [Recording.completedRecording, ht]
  · refine ⟨rfl, ?_⟩
    cases ht : t (Recording.completedRequest st messages
        (if firstMessageAt.truthy then firstMessageAt else JStr.str nowFirst)
        (if lastMessageAt.truthy then lastMessageAt else JStr.str nowLast) visitorId) with
    | ok resp =>
        by_cases hs : resp.status = 200 <;> simp [Recording.completedRecording, ht, hs]
    | error e => simp [Recording.completedRecording, ht]

/-- Witness for C4: a 200 completion on a recording whose identity is `"rec-1"`
resets the identity and succeeds. -/
theorem c4_completed_recording_status_witness :
    (Recording.completedRecording (constTransport 200 (Json.obj []))
        (Recording.init "k" "agent-1" (JStr.str "rec-1") true "1.0.0")
        [] JStr.null JStr.null JStr.null "t1" "t2").requests
      = [Recording.completedRequest
          (Recording.init "k" "agent-1" (JStr.str "rec-1") true "1.0.0")
          [] (JStr.str "t1") (JStr.str "t2") JStr.null]
    ∧ (Recording.completedRecording (constTransport 200 (Json.obj []))
        (Recording.init "k" "agent-1" (JStr.str "rec-1") true "1.0.0")
        [] JStr.null JStr.null JStr.null "t1" "t2").state
      = { Recording.init "k" "agent-1" (JStr.str "rec-1") true "1.0.0" with
          recordingId := JStr.null }
    ∧ (Recording.completedRecording (constTransport 200 (Json.obj []))
        (Recording.init "k" "agent-1" (JStr.str "rec-1") true "1.0.0")
        [] JStr.null JStr.null JStr.null "t1" "t2").outcome = Except.ok () := by
  have h := c4_completed_recording_status (constTransport 200 (Json.obj []))
    (Recording.init "k" "agent-1" (JStr.str "rec-1") true "1.0.0") [] JStr.null
    JStr.null JStr.null "t1" "t2"
    (Recording.completedRequest
      (Recording.init "k" "agent-1" (JStr.str "rec-1") true "1.0.0")
      [] (JStr.str "t1") (JStr.str "t2") JStr.null) rfl
  exact ⟨h.1, h.2.2.1, h.2.2.2⟩

/-- C5 (confirmed): against a transport answering status 200 with
`{id: "abc123"}`, a session constructed with agent ID `"agent-1"` and no optional
fields reports identity `"abc123"` after `create`, and a subsequent
`appendToSession` issues exactly one PUT whose URL contains `"abc123"`, for any
payloads and any transport used by the append. -/
theorem c5_create_then_append_target (messages1 : List Json) (a1 : Bool)
    (t2 : Transport) (messages2 : Option (List Json)) (a2 : Bool) :
    (Session.create (constTransport 200 (Json.obj [("id", Json.str "abc123")]))
        (Session.init "agent-key" "agent-1" JStr.null JStr.null JStr.null JStr.null
          JStr.null JStr.null) messages1 a1).state.sessionId = JStr.str "abc123"
    ∧ ∃ req : Request,
        (Session.appendToSession t2
            (Session.create (constTransport 200 (Json.obj [("id", Json.str "abc123")]))
              (Session.init "agent-key" "agent-1" JStr.null JStr.null JStr.null JStr.null
                JStr.null JStr.null) messages1 a1).state messages2 a2).requests = [req]
        ∧ req.method = Method.put
        ∧ ∃ u v : String, req.url = u ++ "abc123" ++ v := by
  have hst : (Session.create (constTransport 200 (Json.obj [("id", Json.str "abc123")]))
      (Session.init "agent-key" "agent-1" JStr.null JStr.null JStr.null JStr.null
        JStr.null JStr.null) messages1 a1).state
      = { Session.init "agent-key" "agent-1" JStr.null JStr.null JStr.null JStr.null
            JStr.null JStr.null with sessionId := JStr.str "abc123" } := rfl
  refine ⟨rfl,
    Session.appendRequest
      (Session.create (constTransport 200 (Json.obj [("id", Json.str "abc123")]))
        (Session.init "agent-key" "agent-1" JStr.null JStr.null JStr.null JStr.null
          JStr.null JStr.null) messages1 a1).state (messages2.getD []) a2,
    ?_, rfl, WAYFOUND_APPEND_TO_SESSION_URL ++ "/", "", ?_⟩
  · exact appendToSession_requests t2 _ messages2 a2 (by rw [hst]; rfl)
  · rw [hst]; rfl

/-- C6 counterexample: the claim as stated is false.  A visitorId supplied as the
empty string is non-null, yet the creation payload carries no `visitorId` key,
because the code adds each optional field under a JavaScript truthiness test, not
a null test. -/
theorem c6_nonnull_field_absent :
    emptyVisitorSession.visitorId ≠ JStr.null
    ∧ (Session.create (constTransport 200 (Json.obj [("id", Json.str "s1")]))
        emptyVisitorSession [] true).requests
        = [Session.createRequest emptyVisitorSession [] true]
    ∧ (Session.createRequest emptyVisitorSession [] true).body.hasKey "visitorId"
        = false :=
  ⟨by decide, rfl, rfl⟩

/-- C6 (corrected): each of the five optional context fields is a key of the
outgoing creation payload if and only if its constructor-supplied value is truthy,
i.e. non-null, defined and non-empty; null, undefined or empty-string values are
absent from the payload entirely. -/
theorem c6_optional_fields_truthy (t : Transport) (st : SessionState)
    (messages : List Json) (async : Bool) (h : st.sessionId = JStr.null) :
    (Session.create t st messages async).requests
      = [Session.createRequest st messages async]
    ∧ (Session.createRequest st messages async).body.hasKey "applicationId"
        = st.applicationId.truthy
    ∧ (Session.createRequest st messages async).body.hasKey "visitorId"
        = st.visitorId.truthy
    ∧ (Session.createRequest st messages async).body.hasKey "visitorDisplayName"
        = st.visitorDisplayName.truthy
    ∧ (Session.createRequest st messages async).body.hasKey "accountId"
        = st.accountId.truthy
    ∧ (Session.createRequest st messages async).body.hasKey "accountDisplayName"
        = st.accountDisplayName.truthy := by
  have hn : st.sessionId.isNull = true := by rw [h]; rfl
  refine ⟨?_, ?_, ?_, ?_, ?_, ?_⟩
  · cases ht : t (Session.createRequest st messages async) with
    | ok resp => by_cases hs : resp.status = 200 <;> simp [Session.create, hn, ht, hs]
    | error e => simp [Session.create, hn, ht]
  all_goals
    cases h1 : st.visitorId.truthy <;> cases h2 : st.visitorDisplayName.truthy <;>
      cases h3 : st.accountId.truthy <;> cases h4 : st.accountDisplayName.truthy <;>
      cases h5 : st.applicationId.truthy <;>
      simp [Session.createRequest, Session.optionalFields, Json.hasKey, lookupField,
        h1, h2, h3, h4, h5]

/-- Witness for C6 on a session mixing set, empty and null optional fields. -/
theorem c6_optional_fields_truthy_witness :
    (Session.init "k" "agent-1" (JStr.str "app-1") (JStr.str "v-1") JStr.null
        (JStr.str "") JStr.null JStr.null).sessionId = JStr.null
    ∧ ((Session.create failTransport
          (Session.init "k" "agent-1" (JStr.str "app-1") (JStr.str "v-1") JStr.null
            (JStr.str "") JStr.null JStr.null) [] true).requests
        = [Session.createRequest
            (Session.init "k" "agent-1" (JStr.str "app-1") (JStr.str "v-1") JStr.null
              (JStr.str "") JStr.null JStr.null) [] true]
    ∧ (Session.createRequest
          (Session.init "k" "agent-1" (JStr.str "app-1") (JStr.str "v-1") JStr.null
            (JStr.str "") JStr.null JStr.null) [] true).body.hasKey "applicationId"
        = (Session.init "k" "agent-1" (JStr.str "app-1") (JStr.str "v-1") JStr.null
            (JStr.str "") JStr.null JStr.null).applicationId.truthy
    ∧ (Session.createRequest
          (Session.init "k" "agent-1" (JStr.str "app-1") (JStr.str "v-1") JStr.null
            (JStr.str "") JStr.null JStr.null) [] true).body.hasKey "visitorId"
        = (Session.init "k" "agent-1" (JStr.str "app-1") (JStr.str "v-1") JStr.null
            (JStr.str "") JStr.null JStr.null).visitorId.truthy
    ∧ (Session.createRequest
          (Session.init "k" "agent-1" (JStr.str "app-1") (JStr.str "v-1") JStr.null
            (JStr.str "") JStr.null JStr.null) [] true).body.hasKey "visitorDisplayName"
        = (Session.init "k" "agent-1" (JStr.str "app-1") (JStr.str "v-1") JStr.null
            (JStr.str "") JStr.null JStr.null).visitorDisplayName.truthy
    ∧ (Session.createRequest
          (Session.init "k" "agent-1" (JStr.str "app-1") (JStr.str "v-1") JStr.null
            (JStr.str "") JStr.null JStr.null) [] true).body.hasKey "accountId"
        = (Session.init "k" "agent-1" (JStr.str "app-1") (JStr.str "v-1") JStr.null
            (JStr.str "") JStr.null JStr.null).accountId.truthy
    ∧ (Session.createRequest
          (Session.init "k" "agent-1" (JStr.str "app-1") (JStr.str "v-1") JStr.null
            (JStr.str "") JStr.null JStr.null) [] true).body.hasKey "accountDisplayName"
        = (Session.init "k" "agent-1" (JStr.str "app-1") (JStr.str "v-1") JStr.null
            (JStr.str "") JStr.null JStr.null).accountDisplayName.truthy) :=
  ⟨rfl, c6_optional_fields_truthy failTransport _ [] true rfl⟩

/-- C7 (code bug, evaluation at the failing input): after a successful completion
(status 200) the identity is indeed reset to null and the next `recordMessages`
branches into the creation path rather than issuing an update PUT, but the claimed
POST create-with-initial-messages request is never issued: the call throws the
wrapped `ReferenceError` of the undefined `WAYFOUND_RECORDINGS_URL` binding and
sends no request at all. -/
theorem c7_completion_then_create_path :
    (Recording.completedRecording (constTransport 200 (Json.obj []))
        (Recording.init "k" "agent-1" (JStr.str "rec-1") true "1.0.0")
        [] JStr.null JStr.null JStr.null "t1" "t2").outcome = Except.ok ()
    ∧ (Recording.completedRecording (constTransport 200 (Json.obj []))
        (Recording.init "k" "agent-1" (JStr.str "rec-1") true "1.0.0")
        [] JStr.null JStr.null JStr.null "t1" "t2").state.recordingId = JStr.null
    ∧ Recording.recordMessages failTransport
        (Recording.completedRecording (constTransport 200 (Json.obj []))
          (Recording.init "k" "agent-1" (JStr.str "rec-1") true "1.0.0")
          [] JStr.null JStr.null JStr.null "t1" "t2").state
        [some { role := "user", content := "hi" }]
      = { state := (Recording.completedRecording (constTransport 200 (Json.obj []))
            (Recording.init "k" "agent-1" (JStr.str "rec-1") true "1.0.0")
            [] JStr.null JStr.null JStr.null "t1" "t2").state,
          requests := [],
          outcome := Except.error (jsError
            "Error creating new recording: ReferenceError: WAYFOUND_RECORDINGS_URL is not defined") } :=
  ⟨rfl, rfl, rfl⟩

/-- C8 (confirmed): for a Langchain memory whose messages are all of type 'ai' or
'human', the adapter forwards to `recordMessages` the formatted list, which has
the same length and order as the memory's list, each 'ai' entry becoming an
assistant message and each 'human' entry a user message, with content
unchanged. -/
theorem c8_langchain_adapter (memory : LangchainMemory) (t : Transport)
    (st : RecordingState)
    (h : ∀ m ∈ memory.chat_memory.messages, m.type = "ai" ∨ m.type = "human") :
    Recording.recordMessagesFromLangchainMemory t st memory
      = Recording.recordMessages t st
          (memory.chat_memory.messages.map formatLangchainMessage)
    ∧ (memory.chat_memory.messages.map formatLangchainMessage).length
        = memory.chat_memory.messages.length
    ∧ ∀ (i : Nat) (m : LangchainMessage), memory.chat_memory.messages[i]? = some m →
        (memory.chat_memory.messages.map formatLangchainMessage)[i]?
          = some (some { role := if m.type = "ai" then "assistant" else "user",
                         content := m.content }) := by
  refine ⟨rfl, List.length_map _ _, ?_⟩
  intro i m hm
  have hmem : m ∈ memory.chat_memory.messages := List.getElem?_mem hm
  have hmap : (memory.chat_memory.messages.map formatLangchainMessage)[i]?
      = some (formatLangchainMessage m) := by
    rw [List.getElem?_map, hm]; rfl
  rw [hmap]
  rcases h m hmem with hai | hhuman
  · simp [formatLangchainMessage, hai]
  · simp [formatLangchainMessage, hhuman]

/-- Witness for C8 on a two-message memory. -/
theorem c8_langchain_adapter_witness :
    (∀ m ∈ sampleMemory.chat_memory.messages, m.type = "ai" ∨ m.type = "human")
    ∧ (Recording.recordMessagesFromLangchainMemory failTransport
          (Recording.init "k" "agent-1" (JStr.str "rec-1") true "1.0.0") sampleMemory
        = Recording.recordMessages failTransport
            (Recording.init "k" "agent-1" (JStr.str "rec-1") true "1.0.0")
            (sampleMemory.chat_memory.messages.map formatLangchainMessage)
    ∧ (sampleMemory.chat_memory.messages.map formatLangchainMessage).length
        = sampleMemory.chat_memory.messages.length
    ∧ ∀ (i : Nat) (m : LangchainMessage), sampleMemory.chat_memory.messages[i]? = some m →
        (sampleMemory.chat_memory.messages.map formatLangchainMessage)[i]?
          = some (some { role := if m.type = "ai" then "assistant" else "user",
                         content := m.content })) :=
  ⟨by decide, c8_langchain_adapter sampleMemory failTransport
    (Recording.init "k" "agent-1" (JStr.str "rec-1") true "1.0.0") (by decide)⟩

/-- C9 (confirmed): when `sessionId` is non-null, `appendToSession` leaves the
whole object state, hence every field, unchanged, whether the call succeeds or
throws. -/
theorem c9_append_frame (t : Transport) (st : SessionState)
    (messages : Option (List Json)) (async : Bool) (_h : st.sessionId ≠ JStr.null) :
    (Session.appendToSession t st messages async).state = st := by
  unfold Session.appendToSession
  split
  · rfl
  · cases messages with
    | none =>
        cases ht : t (Session.appendRequest st [] async) with
        | ok resp => simp only [ht]; split <;> rfl
        | error e => simp only [ht]
    | some ms =>
        cases ht : t (Session.appendRequest st ms async) with
        | ok resp => simp only [ht]; split <;> rfl
        | error e => simp only [ht]

/-- Witness for C9: appending over a failing transport leaves the object
unchanged. -/
theorem c9_append_frame_witness :
    (Session.init "k" "agent-1" JStr.null JStr.null JStr.null JStr.null JStr.null
        (JStr.str "s-1")).sessionId ≠ JStr.null
    ∧ (Session.appendToSession failTransport
        (Session.init "k" "agent-1" JStr.null JStr.null JStr.null JStr.null JStr.null
          (JStr.str "s-1")) none true).state
      = Session.init "k" "agent-1" JStr.null JStr.null JStr.null JStr.null JStr.null
          (JStr.str "s-1") :=
  ⟨by decide, c9_append_frame failTransport _ none true (by decide)⟩

/-- C10 (confirmed): when the transport resolves with any status other than 200,
201 and 204 included, `Session.create` and `Session.appendToSession` both throw
the doubly wrapped status error; `create` does not store the response's id, so its
`sessionId` stays null, and `appendToSession` leaves its object unchanged. -/
theorem c10_non200_status_failure (t : Transport) (resp : Response)
    (ht : ∀ q, t q = Except.ok resp) (hs : resp.status ≠ 200)
    (st1 st2 : SessionState) (messages1 : List Json) (messages2 : Option (List Json))
    (a1 a2 : Bool) (h1 : st1.sessionId = JStr.null) (h2 : st2.sessionId ≠ JStr.null) :
    (Session.create t st1 messages1 a1).outcome
        = Except.error (jsError ("Error creating session: "
            ++ "Error creating session: " ++ toString resp.status))
    ∧ (Session.create t st1 messages1 a1).state = st1
    ∧ (Session.create t st1 messages1 a1).state.sessionId = JStr.null
    ∧ (Session.appendToSession t st2 messages2 a2).outcome
        = Except.error (jsError ("Error appending to session: "
            ++ "Error appending to session: " ++ toString resp.status))
    ∧ (Session.appendToSession t st2 messages2 a2).state = st2 := by
  have hn1 : st1.sessionId.isNull = true := by rw [h1]; rfl
  have hn2 : st2.sessionId.isNull = false := by
    cases hss : st2.sessionId with
    | null => exact absurd hss h2
    | undefined => rfl
    | str s => rfl
  have hcreate : Session.create t st1 messages1 a1
      = { state := st1, requests := [Session.createRequest st1 messages1 a1],
          outcome := Except.error (jsError ("Error creating session: "
            ++ "Error creating session: " ++ toString resp.status)) } := by
    simp [Session.create, hn1, ht, hs]
  cases messages2 with
  | none =>
      have happ0 : Session.appendToSession t st2 none a2
          = { state := st2, requests := [Session.appendRequest st2 [] a2],
              outcome := Except.error (jsError ("Error appending to session: "
                ++ "Error appending to session: " ++ toString resp.status)) } := by
        simp [Session.appendToSession, hn2, ht, hs]
      rw [hcreate, happ0]
      exact ⟨rfl, rfl, h1, rfl, rfl⟩
  | some ms =>
      have happ1 : Session.appendToSession t st2 (some ms) a2
          = { state := st2, requests := [Session.appendRequest st2 ms a2],
              outcome := Except.error (jsError ("Error appending to session: "
                ++ "Error appending to session: " ++ toString resp.status)) } := by
        simp [Session.appendToSession, hn2, ht, hs]
      rw [hcreate, happ1]
      exact ⟨rfl, rfl, h1, rfl, rfl⟩

/-- Witness for C10 at status 201. -/
theorem c10_non200_status_failure_witness :
    (∀ q, constTransport 201 (Json.obj [("id", Json.str "zzz")]) q
        = Except.ok { status := 201, data := Json.obj [("id", Json.str "zzz")] })
    ∧ (201 : Nat) ≠ 200
    ∧ ((Session.create (constTransport 201 (Json.obj [("id", Json.str "zzz")]))
          (Session.init "k" "agent-1" JStr.null JStr.null JStr.null JStr.null JStr.null
            JStr.null) [] true).outcome
        = Except.error (jsError
            "Error creating session: Error creating session: 201")
    ∧ (Session.create (constTransport 201 (Json.obj [("id", Json.str "zzz")]))
          (Session.init "k" "agent-1" JStr.null JStr.null JStr.null JStr.null JStr.null
            JStr.null) [] true).state
        = Session.init "k" "agent-1" JStr.null JStr.null JStr.null JStr.null JStr.null
            JStr.null
    ∧ (Session.create (constTransport 201 (Json.obj [("id", Json.str "zzz")]))
          (Session.init "k" "agent-1" JStr.null JStr.null JStr.null JStr.null JStr.null
            JStr.null) [] true).state.sessionId = JStr.null
    ∧ (Session.appendToSession (constTransport 201 (Json.obj [("id", Json.str "zzz")]))
          (Session.init "k" "agent-1" JStr.null JStr.null JStr.null JStr.null JStr.null
            (JStr.str "s-1")) none false).outcome
        = Except.error (jsError
            "Error appending to session: Error appending to session: 201")
    ∧ (Session.appendToSession (constTransport 201 (Json.obj [("id", Json.str "zzz")]))
          (Session.init "k" "agent-1" JStr.null JStr.null JStr.null JStr.null JStr.null
            (JStr.str "s-1")) none false).state
        = Session.init "k" "agent-1" JStr.null JStr.null JStr.null JStr.null JStr.null
            (JStr.str "s-1")) :=
  ⟨fun _ => rfl, by decide,
    c10_non200_status_failure (constTransport 201 (Json.obj [("id", Json.str "zzz")]))
      { status := 201, data := Json.obj [("id", Json.str "zzz")] }
      (fun _ => rfl) (by decide)
      (Session.init "k" "agent-1" JStr.null JStr.null JStr.null JStr.null JStr.null
        JStr.null)
      (Session.init "k" "agent-1" JStr.null JStr.null JStr.null JStr.null JStr.null
        (JStr.str "s-1"))
      [] none true false rfl (by decide)⟩

end Wayfound
